import Mathlib

/-!
Verification development for the sonata-seeker analysis backend.

The repository holds two evolutions of the same Python pipeline:
src/python-backend/main.py (the richer, later one) and src/backend/main.py
(the earlier one).  The definitions below are shallow embeddings of the
pure computational content of both files.  Python floats are modelled as
rationals, machine exceptions inside try blocks as Option results, and
the external music21 capabilities (key finding, roman-numeral
classification, pitch extraction) as pre-computed inputs to the embedded
functions, exactly at the points where the source calls out to them.
-/

set_option autoImplicit false

namespace SonataSeeker

/-- Python substring containment, the expression sub in s on strings. -/
def py_in (sub s : String) : Bool :=
  s.toList.tails.any fun t => sub.toList.isPrefixOf t

/-- Python str.lower(), modelled characterwise over the char list (the
key labels here are ASCII). -/
def py_lower (s : String) : String :=
  String.mk (s.toList.map Char.toLower)

/-- Arithmetic mean of a list of rationals, as np.mean computes it
(division by the length; 0/0 = 0 for the empty list in this model). -/
def mean (l : List ℚ) : ℚ := l.sum / l.length

-- ================================================================
--  DurationResolver: get_true_duration_seconds
--  (src/python-backend/main.py lines 33-116)
-- ================================================================

/-- One entry of score.secondsMap.  The source reads the keys with
event.get("offsetSeconds", 0) or 0 and event.get("durationSeconds") or 0,
so a missing or None value collapses to 0; we model both keys as Option. -/
structure SMEvent where
  offsetSeconds : Option ℚ
  durationSeconds : Option ℚ
deriving DecidableEq

/-- A pitched event as the duration resolver sees it: onset and length in
quarter lengths. -/
structure NoteQL where
  offset : ℚ
  quarterLength : ℚ
deriving DecidableEq, Inhabited

/-- The observable surface of a music21 score used by
get_true_duration_seconds.  A none in highestTime, secondsMap, notes or
durationQL models the corresponding attribute access raising inside the
try block of that method.  Each tempo mark carries Option ℚ because the
number field of a MetronomeMark may be None. -/
structure Score where
  highestTime : Option ℚ
  secondsMap : Option (List SMEvent)
  notes : Option (List NoteQL)
  durationQL : Option ℚ
  marks : List (Option ℚ)
deriving DecidableEq

/-- get_seconds_map: returns score.secondsMap, or [] when the access
raises (source lines 33-38). -/
def get_seconds_map (s : Score) : List SMEvent :=
  s.secondsMap.getD []

/-- The bpm lookup marks[0].number if marks else 120.  A none result
means the first mark exists but its number is None, so any later
arithmetic on it raises. -/
def bpmOf (marks : List (Option ℚ)) : Option ℚ :=
  match marks with
  | [] => some 120
  | m :: _ => m

/-- The conversion q * (60 / bpm) shared by the duration strategies and
by quarter_to_seconds.  none models the TypeError raised when bpm is
None and the ZeroDivisionError raised when bpm = 0. -/
def tempoSeconds (marks : List (Option ℚ)) (q : ℚ) : Option ℚ :=
  match bpmOf marks with
  | none => none
  | some bpm => if bpm = 0 then none else some (q * (60 / bpm))

/-- The guard if duration > 0: return duration shared by every strategy. -/
def posOnly (d : ℚ) : Option ℚ :=
  if 0 < d then some d else none

/-- Method 1 of get_true_duration_seconds (source lines 44-56):
score.highestTime in quarter lengths, converted with the first bpm,
accepted only when positive. -/
def strat1 (s : Score) : Option ℚ :=
  s.highestTime.bind fun h =>
    if 0 < h then (tempoSeconds s.marks h).bind posOnly else none

/-- End time offsetSeconds + durationSeconds of one secondsMap event,
with missing or None values read as 0. -/
def smEnd (e : SMEvent) : ℚ :=
  e.offsetSeconds.getD 0 + e.durationSeconds.getD 0

/-- Method 2 (source lines 58-73): the maximum event end time of the
secondsMap, accepted only when positive. -/
def strat2 (s : Score) : Option ℚ :=
  match get_seconds_map s with
  | [] => none
  | e :: rest => posOnly ((rest.map smEnd).foldl max (smEnd e))

/-- End time offset + quarterLength of a note in quarter lengths. -/
def noteEnd (n : NoteQL) : ℚ :=
  n.offset + n.quarterLength

/-- Method 3 (source lines 75-88): the largest note end time in quarter
lengths, converted with the first bpm, accepted only when positive. -/
def strat3 (s : Score) : Option ℚ :=
  s.notes.bind fun ns =>
    match ns with
    | [] => none
    | n :: rest =>
      (tempoSeconds s.marks ((rest.map noteEnd).foldl max (noteEnd n))).bind posOnly

/-- Method 4 (source lines 90-99): score.duration.quarterLength converted
with the first bpm, accepted only when positive. -/
def strat4 (s : Score) : Option ℚ :=
  s.durationQL.bind fun q => (tempoSeconds s.marks q).bind posOnly

/-- get_true_duration_seconds (source lines 41-103): the four strategies
in source order, then the constant fallback 180.0. -/
def get_true_duration_seconds (s : Score) : ℚ :=
  match strat1 s with
  | some d => d
  | none =>
    match strat2 s with
    | some d => d
    | none =>
      match strat3 s with
      | some d => d
      | none =>
        match strat4 s with
        | some d => d
        | none => 180

/-- quarter_to_seconds (source lines 106-110): float(q) * (60 / bpm) with
no guard on bpm; the Option result records the raise behaviour for a None
or zero bpm.  The inline conversion in analyze_key_by_notes (lines
138-152) computes the same expression with 60.0 / bpm. -/
def quarter_to_seconds (marks : List (Option ℚ)) (q : ℚ) : Option ℚ :=
  tempoSeconds marks q

-- ================================================================
--  KeyAreaAnalyzer: analyze_key_areas
--  (src/python-backend/main.py lines 122-275)
-- ================================================================

/-- A local key area as the python-backend dictionaries carry it. -/
structure KeyArea where
  key : String
  mode : String
  tonic : String
  start_offset : ℚ
  end_offset : ℚ
  correlation : ℚ
deriving DecidableEq, Inhabited

/-- The global key estimate dictionary built by analyze_global_key. -/
structure GlobalKey where
  key : String
  mode : String
  tonic : String
  correlation : ℚ
deriving DecidableEq, Inhabited

/-- analyze_key_areas (source lines 198-275).  The note-based and
measure-based segmentations call the external music21 key-finding
capability, so their results enter as inputs: noteAreas is what
analyze_key_by_notes produced, and measureAreas is what the
measure-block fallback would produce (the source only runs it when
noteAreas is empty).  The function then applies the fallback chain of
the source verbatim: measure blocks, then the global key over the whole
span, then the default C-major area. -/
def analyze_key_areas (noteAreas measureAreas : List KeyArea)
    (globalKey : Option GlobalKey) (duration : ℚ) : List KeyArea × Option GlobalKey :=
  let areas1 := noteAreas
  let areas2 :=
    match areas1 with
    | [] => measureAreas
    | _ => areas1
  let areas3 :=
    match areas2 with
    | [] =>
      match globalKey with
      | some g => [⟨g.key, g.mode, g.tonic, 0, duration, g.correlation⟩]
      | none => []
    | _ => areas2
  let areas4 :=
    match areas3 with
    | [] => [⟨"C major", "major", "C", 0, duration, 0.5⟩]
    | _ => areas3
  (areas4, globalKey)

-- ================================================================
--  ThemeContourExtractor: detect_thematic_material
--  (src/python-backend/main.py lines 278-323)
-- ================================================================

/-- A melodic note as the theme extractor sees it: pitchMidi is the
value of get_pitch_midi (single pitch, or the highest pitch of a chord,
or 60 when neither exists), resolved by the external score model. -/
structure NoteEv where
  offset : ℚ
  quarterLength : ℚ
  pitchMidi : ℤ
deriving DecidableEq, Inhabited

/-- One output window of detect_thematic_material. -/
structure ThemeWindow where
  start_offset : ℚ
  end_offset : ℚ
  melodic_range : ℤ
  avg_interval : ℚ
  rhythmic_density : ℚ
  contour_direction : String
deriving DecidableEq, Inhabited

/-- The Python expression range(start, stop, step) for step > 0. -/
def pyRange (start stop step : ℕ) : List ℕ :=
  (List.range ((stop - start + (step - 1)) / step)).map fun k => start + k * step

/-- The feature record built for one 8-note window (source lines
303-321): pitch diffs, mean absolute interval, mean duration and its
reciprocal, contour direction from the sum of signed intervals, and the
window time span converted with 60 / bpm. -/
def theme_window (bpm : ℚ) (sec : List NoteEv) : ThemeWindow :=
  let pitches := sec.map NoteEv.pitchMidi
  let contour := List.zipWith (fun a b => b - a) pitches pitches.tail
  let durations := sec.map NoteEv.quarterLength
  let avg_dur := mean durations
  let p0 := pitches.headD 0
  let first := sec.headD default
  let last := sec.getLastD default
  { start_offset := first.offset * (60 / bpm)
    end_offset := (last.offset + last.quarterLength) * (60 / bpm)
    melodic_range := pitches.foldl max p0 - pitches.foldl min p0
    avg_interval := if 0 < contour.length then mean (contour.map fun x => ((|x| : ℤ) : ℚ)) else 0
    rhythmic_density := if avg_dur ≠ 0 then 1 / avg_dur else 1
    contour_direction := if 0 < contour.sum then "ascending" else "descending" }

/-- detect_thematic_material (source lines 287-323): empty when fewer
than 10 notes, else one window per index of range(0, len - 8, 4).  notes
is the first part when parts exist, else all notes, resolved by the
external score model; bpm is the first tempo mark used by
quarter_to_seconds. -/
def detect_thematic_material (bpm : ℚ) (notes : List NoteEv) : List ThemeWindow :=
  if notes.length < 10 then []
  else (pyRange 0 (notes.length - 8) 4).map fun i => theme_window bpm ((notes.drop i).take 8)

-- ================================================================
--  CadenceDetector: detect_cadences
--  (src/python-backend/main.py lines 326-368;
--   src/backend/main.py lines 107-146 has the same pair rules)
-- ================================================================

/-- A chord of a measure.  rn is the romanNumeral label that
music21.roman.romanNumeralFromChord assigns against the local key of
the measure; none models the classification raising for that chord. -/
structure MChord where
  offset : ℚ
  rn : Option String
deriving DecidableEq

/-- A measure as the cadence detector sees it: its offset, its chords,
and the local key string produced by measure.analyze, with none when
that analysis raises. -/
structure MeasureM where
  offset : ℚ
  chords : List MChord
  localKey : Option String
deriving DecidableEq

/-- One detected cadence record. -/
structure Cadence where
  type : String
  measure : ℕ
  offset : ℚ
  key : String
deriving DecidableEq

/-- The body of the inner loop of detect_cadences for one adjacent chord
pair (chords[j], chords[j+1]) of measure m (source lines 341-366): the
authentic rule V-in-rn1 and rn2 = I, else the half rule V-in-rn2
restricted to j = len(chords) - 2. -/
def pair_cadence (bpm : ℚ) (i : ℕ) (m : MeasureM) (k : String) (j : ℕ) : List Cadence :=
  match (m.chords.getD j ⟨0, none⟩).rn, (m.chords.getD (j + 1) ⟨0, none⟩).rn with
  | some r1, some r2 =>
    if py_in "V" r1 && (r2 == "I") then
      [⟨"authentic", i, ((m.chords.getD (j + 1) ⟨0, none⟩).offset + m.offset) * (60 / bpm), k⟩]
    else if py_in "V" r2 && (j == m.chords.length - 2) then
      [⟨"half", i, ((m.chords.getD (j + 1) ⟨0, none⟩).offset + m.offset) * (60 / bpm), k⟩]
    else []
  | _, _ => []

/-- The cadences contributed by measure i (source lines 330-366):
nothing when the measure has fewer than 2 chords or its key analysis
raises, else the pair rule over every adjacent index. -/
def measure_cadences (bpm : ℚ) (i : ℕ) (m : MeasureM) : List Cadence :=
  if m.chords.length < 2 then []
  else
    match m.localKey with
    | none => []
    | some k => (List.range (m.chords.length - 1)).flatMap (pair_cadence bpm i m k)

/-- detect_cadences (source lines 326-368) over the enumerated measure
list, with bpm the first tempo mark used by quarter_to_seconds. -/
def detect_cadences (bpm : ℚ) (measures : List MeasureM) : List Cadence :=
  measures.enum.flatMap fun p => measure_cadences bpm p.1 p.2

-- ================================================================
--  SectionSynthesizer: identify_sonata_sections
-- ================================================================

/-- One synthesized sonata-form section record. -/
structure SSection where
  type : String
  startTime : ℚ
  endTime : ℚ
  confidence : ℚ
  description : String
  musicalKey : String
deriving DecidableEq, Inhabited

/-- The secondary-key scan of the python-backend (source lines 403-408):
the first key area whose start lies strictly between expo_end * 0.4 and
expo_end and whose key differs from the primary key. -/
def secondary_area (expo_end : ℚ) (primary_key : String) (kas : List KeyArea) : Option KeyArea :=
  kas.find? fun ka =>
    decide (expo_end * 0.4 < ka.start_offset) && decide (ka.start_offset < expo_end)
      && (ka.key != primary_key)

/-- The primary key selection of identify_sonata_sections (source lines
380-392): the global key when present, else the first key area, else the
C-major default; the tuple is (key, tonic, mode). -/
def primary_info (global_key : Option GlobalKey) (key_areas : List KeyArea) :
    String × String × String :=
  match global_key with
  | some g => (g.key, g.tonic, g.mode)
  | none =>
    match key_areas with
    | ka :: _ => (ka.key, ka.tonic, ka.mode)
    | [] => ("C major", "C", "major")

/-- The secondary key of identify_sonata_sections (source lines
403-423): the first differing key area in the scan window, else the
textual fallback chain over the primary key label. -/
def secondary_key_calc (expo_end : ℚ) (primary_key primary_tonic : String)
    (key_areas : List KeyArea) : String :=
  match secondary_area expo_end primary_key key_areas with
  | some ka => ka.key
  | none =>
    if py_in "C major" primary_key || primary_tonic == "C" then "G major"
    else if py_in "G major" primary_key then "D major"
    else if py_in "D major" primary_key then "A major"
    else if py_in "F major" primary_key then "C major"
    else if py_in "minor" (py_lower primary_key) then "Relative major"
    else "V of " ++ primary_key

/-- identify_sonata_sections of src/python-backend/main.py (lines
375-508).  themes and cadences are accepted and ignored as in the
source.  The dead secondary_candidates lists of lines 396-400 (computed
from the mode and never read) are omitted.  The tonic and mode defaults
of the dict reads on lines 383-388 never fire for records built by this
pipeline, so the fields are plain strings here. -/
def identify_sonata_sections (duration : ℚ) (key_areas : List KeyArea)
    (themes : List ThemeWindow) (cadences : List Cadence)
    (global_key : Option GlobalKey) : List SSection :=
  let _ := themes
  let _ := cadences
  let expo_end := duration * 0.35
  let dev_end := duration * 0.70
  let primary := primary_info global_key key_areas
  let primary_key := primary.1
  let primary_tonic := primary.2.1
  let secondary_key := secondary_key_calc expo_end primary_key primary_tonic key_areas
  [ ⟨"exposition-theme1", 0, expo_end * 0.40, 0.85,
      "Primeiro tema na tonalidade de " ++ primary_key, primary_key⟩,
    ⟨"exposition-transition", expo_end * 0.40, expo_end * 0.55, 0.75,
      "Transição modulante de " ++ primary_key ++ " para " ++ secondary_key, "modulando"⟩,
    ⟨"exposition-theme2", expo_end * 0.55, expo_end * 0.85, 0.80,
      "Segundo tema na tonalidade de " ++ secondary_key, secondary_key⟩,
    ⟨"exposition-closing", expo_end * 0.85, expo_end, 0.70,
      "Tema de encerramento em " ++ secondary_key, secondary_key⟩,
    ⟨"development", expo_end, dev_end, 0.75,
      "Desenvolvimento com fragmentação temática e modulações", "instável"⟩,
    ⟨"recapitulation-theme1", dev_end, dev_end + (duration - dev_end) * 0.35, 0.80,
      "Retorno do primeiro tema em " ++ primary_key, primary_key⟩,
    ⟨"recapitulation-transition", dev_end + (duration - dev_end) * 0.35,
      dev_end + (duration - dev_end) * 0.45, 0.70,
      "Transição modificada em " ++ primary_key, primary_key⟩,
    ⟨"recapitulation-theme2", dev_end + (duration - dev_end) * 0.45,
      dev_end + (duration - dev_end) * 0.75, 0.80,
      "Segundo tema agora na tônica (" ++ primary_key ++ ")", primary_key⟩,
    ⟨"coda", dev_end + (duration - dev_end) * 0.75, duration, 0.75,
      "Coda em " ++ primary_key, primary_key⟩ ]

namespace Backend

/-- A key area dictionary of src/backend/main.py (no tonic field). -/
structure BKeyArea where
  key : String
  mode : String
  start_offset : ℚ
  end_offset : ℚ
  correlation : ℚ
deriving DecidableEq, Inhabited

/-- get_key_stability of src/backend/main.py (lines 170-175): 0.5 when
no key area is fully contained in [s, e], else the reciprocal of the
number of distinct keys among the contained areas (the guarded 0.5
branch for a zero count is kept from the source). -/
def get_key_stability (key_areas : List BKeyArea) (s e : ℚ) : ℚ :=
  let relevant := key_areas.filter fun k =>
    decide (s ≤ k.start_offset) && decide (k.end_offset ≤ e)
  match relevant with
  | [] => 0.5
  | l =>
    let unique := (l.map BKeyArea.key).dedup.length
    if 0 < unique then 1 / (unique : ℚ) else 0.5

/-- identify_sonata_sections of src/backend/main.py (lines 149-275).
themes and cadences are accepted and ignored as in the source. -/
def identify_sonata_sections (duration : ℚ) (key_areas : List BKeyArea)
    (themes : List ThemeWindow) (cadences : List Cadence) : List SSection :=
  let _ := themes
  let _ := cadences
  let expo_end := duration * 0.35
  let dev_end := duration * 0.70
  let primary_key :=
    match key_areas with
    | ka :: _ => ka.key
    | [] => "C major"
  let mid_keys := key_areas.filter fun k =>
    decide (expo_end * 0.5 < k.start_offset) && decide (k.start_offset < expo_end)
  let secondary_key :=
    match mid_keys with
    | k :: _ => k.key
    | [] => "G major"
  let dev_stability := get_key_stability key_areas expo_end dev_end
  [ ⟨"exposition-theme1", 0, expo_end * 0.4, 0.85,
      "First theme area in " ++ primary_key, primary_key⟩,
    ⟨"exposition-transition", expo_end * 0.4, expo_end * 0.55, 0.75,
      "Transitional passage modulating to secondary key", "modulating"⟩,
    ⟨"exposition-theme2", expo_end * 0.55, expo_end * 0.85, 0.80,
      "Second theme area in " ++ secondary_key, secondary_key⟩,
    ⟨"exposition-closing", expo_end * 0.85, expo_end, 0.70,
      "Closing theme confirming secondary key", secondary_key⟩,
    ⟨"development", expo_end, dev_end, 0.75 + (1 - dev_stability) * 0.2,
      "Development section with thematic fragmentation and key exploration", "unstable"⟩,
    ⟨"recapitulation-theme1", dev_end, dev_end + (duration - dev_end) * 0.35, 0.80,
      "Return of first theme in " ++ primary_key, primary_key⟩,
    ⟨"recapitulation-transition", dev_end + (duration - dev_end) * 0.35,
      dev_end + (duration - dev_end) * 0.45, 0.70,
      "Modified transition remaining in tonic", primary_key⟩,
    ⟨"recapitulation-theme2", dev_end + (duration - dev_end) * 0.45,
      dev_end + (duration - dev_end) * 0.75, 0.80,
      "Second theme now in " ++ primary_key, primary_key⟩,
    ⟨"coda", dev_end + (duration - dev_end) * 0.75, duration, 0.75,
      "Coda confirming " ++ primary_key, primary_key⟩ ]

end Backend

-- ================================================================
--  Theorems
-- ================================================================

/-- The partition shape claimed for the section synthesizer: nine
sections in the fixed template order, first start 0, each end meeting
the next start, every span of positive length, last end equal to the
duration. -/
def SectionsOk (d : ℚ) (ss : List SSection) : Prop :=
  ss.map SSection.type =
    ["exposition-theme1", "exposition-transition", "exposition-theme2",
     "exposition-closing", "development", "recapitulation-theme1",
     "recapitulation-transition", "recapitulation-theme2", "coda"]
  ∧ (ss.headD default).startTime = 0
  ∧ ss.Chain' (fun a b => a.endTime = b.startTime)
  ∧ (∀ s ∈ ss, s.startTime < s.endTime)
  ∧ (ss.getLastD default).endTime = d

/-- C1: for every duration D > 0 and any key-area, theme, cadence and
global-key inputs, both variants of identify_sonata_sections return
exactly 9 sections in the fixed template order, contiguous,
non-overlapping, with union exactly [0, D). -/
theorem identify_sonata_sections_partition (d : ℚ) (hd : 0 < d)
    (kas : List KeyArea) (bkas : List Backend.BKeyArea)
    (themes : List ThemeWindow) (cads : List Cadence) (gk : Option GlobalKey) :
    SectionsOk d (identify_sonata_sections d kas themes cads gk)
    ∧ SectionsOk d (Backend.identify_sonata_sections d bkas themes cads) := by
  constructor <;>
  · refine ⟨rfl, rfl,
      .cons rfl (.cons rfl (.cons rfl (.cons rfl (.cons rfl (.cons rfl (.cons rfl
        (.cons rfl .nil))))))), ?_, rfl⟩
    rw [← List.forall_iff_forall_mem]
    refine ⟨?_, ?_, ?_, ?_, ?_, ?_, ?_, ?_, ?_⟩ <;>
      (try simp only [List.forall_cons, List.Forall, and_true]) <;> linarith

/-- Witness for C1 at duration 120 with empty analysis inputs. -/
theorem identify_sonata_sections_partition_witness :
    (0 : ℚ) < 120
    ∧ SectionsOk 120 (identify_sonata_sections 120 [] [] [] none)
    ∧ SectionsOk 120 (Backend.identify_sonata_sections 120 [] [] []) :=
  ⟨by norm_num,
   (identify_sonata_sections_partition 120 (by norm_num) [] [] [] [] none).1,
   (identify_sonata_sections_partition 120 (by norm_num) [] [] [] [] none).2⟩

/-- The nine time spans produced by the python-backend synthesizer, as
functions of the duration alone. -/
theorem identify_spans_eq (d : ℚ) (kas : List KeyArea) (themes : List ThemeWindow)
    (cads : List Cadence) (gk : Option GlobalKey) :
    (identify_sonata_sections d kas themes cads gk).map (fun s => (s.startTime, s.endTime)) =
    [(0, d * 0.35 * 0.40), (d * 0.35 * 0.40, d * 0.35 * 0.55),
     (d * 0.35 * 0.55, d * 0.35 * 0.85), (d * 0.35 * 0.85, d * 0.35),
     (d * 0.35, d * 0.70), (d * 0.70, d * 0.70 + (d - d * 0.70) * 0.35),
     (d * 0.70 + (d - d * 0.70) * 0.35, d * 0.70 + (d - d * 0.70) * 0.45),
     (d * 0.70 + (d - d * 0.70) * 0.45, d * 0.70 + (d - d * 0.70) * 0.75),
     (d * 0.70 + (d - d * 0.70) * 0.75, d)] := rfl

/-- C6 counterexample: at duration 120.0 the synthesized recapitulation
boundaries differ from the spans the claim lists (the claim has 97.6,
101.2 and 110.2 where the code computes 96.6, 100.2 and 111). -/
theorem identify_at_120_spans_ne_claimed :
    (identify_sonata_sections 120 [] [] [] none).map (fun s => (s.startTime, s.endTime)) ≠
    [(0, 16.8), (16.8, 23.1), (23.1, 35.7), (35.7, 42), (42, 84),
     (84, 97.6), (97.6, 101.2), (101.2, 110.2), (110.2, 120)] := by
  rw [identify_spans_eq]
  intro h
  have h6 := congrArg (fun l => (l.getD 5 (0, 0)).2) h
  norm_num at h6

/-- C6 amended: for duration exactly 120.0 and any other inputs,
expo_end = 42 and dev_end = 84, and the nine spans are [0,16.8),
[16.8,23.1), [23.1,35.7), [35.7,42), [42,84), [84,96.6), [96.6,100.2),
[100.2,111), [111,120). -/
theorem identify_at_120_spans (kas : List KeyArea) (themes : List ThemeWindow)
    (cads : List Cadence) (gk : Option GlobalKey) :
    (120 : ℚ) * 0.35 = 42 ∧ (120 : ℚ) * 0.70 = 84 ∧
    (identify_sonata_sections 120 kas themes cads gk).map (fun s => (s.startTime, s.endTime)) =
    [(0, 16.8), (16.8, 23.1), (23.1, 35.7), (35.7, 42), (42, 84),
     (84, 96.6), (96.6, 100.2), (100.2, 111), (111, 120)] := by
  refine ⟨by norm_num, by norm_num, ?_⟩
  rw [identify_spans_eq]
  norm_num
/-- The nine confidences of the python-backend synthesizer: all nine are
constants, the development entry included. -/
theorem identify_confidences_eq (d : ℚ) (kas : List KeyArea) (themes : List ThemeWindow)
    (cads : List Cadence) (gk : Option GlobalKey) :
    (identify_sonata_sections d kas themes cads gk).map SSection.confidence =
    [0.85, 0.75, 0.80, 0.70, 0.75, 0.80, 0.70, 0.80, 0.75] := rfl

/-- The nine confidences of the backend synthesizer: eight constants and
the dynamic development entry. -/
theorem backend_confidences_eq (d : ℚ) (bkas : List Backend.BKeyArea)
    (themes : List ThemeWindow) (cads : List Cadence) :
    (Backend.identify_sonata_sections d bkas themes cads).map SSection.confidence =
    [0.85, 0.75, 0.80, 0.70,
     0.75 + (1 - Backend.get_key_stability bkas (d * 0.35) (d * 0.70)) * 0.2,
     0.80, 0.70, 0.80, 0.75] := rfl

/-- The key-stability formula exactly as the claim words it: 1 over the
number of distinct keys among the areas fully contained in [s, e],
defaulting to 0.5 when no area is contained.  Areas are given as
(start_sec, end_sec, key) triples so the formula applies to the key-area
records of either backend. -/
def claimed_key_stability (areas : List (ℚ × ℚ × String)) (s e : ℚ) : ℚ :=
  let relevant := areas.filter fun a => decide (s ≤ a.1) && decide (a.2.1 ≤ e)
  match relevant with
  | [] => 0.5
  | l => 1 / (((l.map fun a => a.2.2).dedup.length : ℚ))

/-- The (start_sec, end_sec, key) view of a backend key area. -/
def bArea (k : Backend.BKeyArea) : ℚ × ℚ × String :=
  (k.start_offset, k.end_offset, k.key)

/-- The (start_sec, end_sec, key) view of a python-backend key area. -/
def pArea (k : KeyArea) : ℚ × ℚ × String :=
  (k.start_offset, k.end_offset, k.key)

/-- Two key areas fully contained in the development span with distinct
keys, giving uniqueKeyCount 2 for duration 120. -/
def kasC4 : List KeyArea :=
  [⟨"G major", "major", "G", 50, 60, 0.8⟩, ⟨"D major", "major", "D", 60, 70, 0.8⟩]

/-- C4 counterexample: in the python-backend synthesizer the development
confidence stays 0.75 even when the claimed formula yields 0.85
(two distinct keys fully inside [42, 84] at duration 120). -/
theorem development_confidence_ne_claimed :
    ((identify_sonata_sections 120 kasC4 [] [] none).map SSection.confidence).getD 4 0 ≠
    0.75 + (1 - claimed_key_stability (kasC4.map pArea) (120 * 0.35) (120 * 0.70)) * 0.2 := by
  rw [identify_confidences_eq]
  norm_num [claimed_key_stability, kasC4, pArea,
    show ((["G major", "D major"] : List String).dedup) = ["G major", "D major"] by decide]

/-- Backend.get_key_stability agrees with the claimed formula: the
guarded zero-count branch of the source is unreachable because a
non-empty filtered list has a non-empty dedup of keys. -/
theorem get_key_stability_eq_claimed (bkas : List Backend.BKeyArea) (s e : ℚ) :
    Backend.get_key_stability bkas s e = claimed_key_stability (bkas.map bArea) s e := by
  unfold Backend.get_key_stability claimed_key_stability
  rw [List.filter_map]
  have hcomp : ((fun a : ℚ × ℚ × String => decide (s ≤ a.1) && decide (a.2.1 ≤ e)) ∘ bArea) =
      fun k : Backend.BKeyArea => decide (s ≤ k.start_offset) && decide (k.end_offset ≤ e) := rfl
  rw [hcomp]
  cases hrel : bkas.filter
      (fun k : Backend.BKeyArea => decide (s ≤ k.start_offset) && decide (k.end_offset ≤ e)) with
  | nil => rfl
  | cons a l =>
    simp only [List.map_cons]
    have hkeys : ((a :: l).map bArea).map (fun a => a.2.2) = (a :: l).map Backend.BKeyArea.key := by
      simp [bArea, Function.comp]
    have hne : ((a :: l).map Backend.BKeyArea.key).dedup.length ≠ 0 := by
      simp [List.dedup_eq_nil]
    simp only [List.map_cons] at hkeys
    rw [hkeys]
    have hpos : 0 < ((a :: l).map Backend.BKeyArea.key).dedup.length := Nat.pos_of_ne_zero hne
    simp only [List.map_cons] at hpos ⊢
    rw [if_pos hpos]

/-- C4 amended: the dynamic development confidence
0.75 + (1 - keyStability) * 0.20 holds in the backend variant, with
keyStability exactly as the claim words it; the python-backend variant
instead uses the constant 0.75. -/
theorem development_confidence_by_variant :
    (∀ (d : ℚ) (bkas : List Backend.BKeyArea) (themes : List ThemeWindow)
        (cads : List Cadence),
      ((Backend.identify_sonata_sections d bkas themes cads).map SSection.confidence).getD 4 0 =
        0.75 + (1 - claimed_key_stability (bkas.map bArea) (d * 0.35) (d * 0.70)) * 0.2)
    ∧ (∀ (d : ℚ) (kas : List KeyArea) (themes : List ThemeWindow) (cads : List Cadence)
        (gk : Option GlobalKey),
      ((identify_sonata_sections d kas themes cads gk).map SSection.confidence).getD 4 0 = 0.75) := by
  constructor
  · intro d bkas themes cads
    rw [backend_confidences_eq, get_key_stability_eq_claimed]
    rfl
  · intro d kas themes cads gk
    rw [identify_confidences_eq]
    rfl
/-- The nine musical keys assigned by the python-backend synthesizer:
the primary key everywhere except the modulating transition and the two
secondary-key sections. -/
theorem identify_keys_eq (d : ℚ) (kas : List KeyArea) (themes : List ThemeWindow)
    (cads : List Cadence) (gk : Option GlobalKey) :
    (identify_sonata_sections d kas themes cads gk).map SSection.musicalKey =
    [(primary_info gk kas).1, "modulando",
     secondary_key_calc (d * 0.35) (primary_info gk kas).1 (primary_info gk kas).2.1 kas,
     secondary_key_calc (d * 0.35) (primary_info gk kas).1 (primary_info gk kas).2.1 kas,
     "instável", (primary_info gk kas).1, (primary_info gk kas).1, (primary_info gk kas).1,
     (primary_info gk kas).1] := rfl

/-- A global key estimate for a piece in A minor, as analyze_global_key
labels it. -/
def gkAminor : GlobalKey := ⟨"A minor", "minor", "A", 0.9⟩

/-- C5 counterexample: with primary key "A minor" and no qualifying key
area, the second-theme key computed by the code is not "C major" (it is
the literal label "Relative major"). -/
theorem secondary_key_minor_ne_claimed :
    ((identify_sonata_sections 180 [] [] [] (some gkAminor)).map SSection.musicalKey).getD 2 ""
      ≠ "C major" := by
  decide

/-- C5 amended: when no key area in the scan window differs from the
primary key, the secondary key comes from a textual fallback chain, not
from music theory; for a primary key labelled minor that matches none of
the earlier textual cases the result is the literal string
"Relative major". -/
theorem secondary_key_minor_fallback (d : ℚ) (g : GlobalKey) (kas : List KeyArea)
    (themes : List ThemeWindow) (cads : List Cadence)
    (h0 : secondary_area (d * 0.35) g.key kas = none)
    (h1 : py_in "C major" g.key = false) (h2 : (g.tonic == "C") = false)
    (h3 : py_in "G major" g.key = false) (h4 : py_in "D major" g.key = false)
    (h5 : py_in "F major" g.key = false) (h6 : py_in "minor" (py_lower g.key) = true) :
    ((identify_sonata_sections d kas themes cads (some g)).map SSection.musicalKey).getD 2 ""
      = "Relative major" := by
  rw [identify_keys_eq]
  have hg : ∀ (a b c : String) (l : List String), (a :: b :: c :: l).getD 2 "" = c :=
    fun _ _ _ _ => rfl
  rw [hg]
  show secondary_key_calc (d * 0.35) g.key g.tonic kas = "Relative major"
  unfold secondary_key_calc
  rw [h0]
  simp [h1, h2, h3, h4, h5, h6]

/-- Witness for C5 amended at primary key "A minor" with no key areas. -/
theorem secondary_key_minor_fallback_witness :
    (secondary_area (180 * 0.35) gkAminor.key [] = none
      ∧ py_in "C major" gkAminor.key = false ∧ (gkAminor.tonic == "C") = false
      ∧ py_in "G major" gkAminor.key = false ∧ py_in "D major" gkAminor.key = false
      ∧ py_in "F major" gkAminor.key = false ∧ py_in "minor" (py_lower gkAminor.key) = true)
    ∧ ((identify_sonata_sections 180 [] [] [] (some gkAminor)).map SSection.musicalKey).getD 2 ""
      = "Relative major" :=
  ⟨⟨rfl, rfl, rfl, rfl, rfl, rfl, rfl⟩,
   secondary_key_minor_fallback 180 gkAminor [] [] [] rfl rfl rfl rfl rfl rfl rfl⟩
/-- C7: the key-area fallback chain never yields an empty list, and when
the note-based pass, the measure-based pass and the global key all yield
nothing, the result is the single default C-major area over
[0, duration). -/
theorem analyze_key_areas_nonempty :
    (∀ (noteAreas measureAreas : List KeyArea) (gk : Option GlobalKey) (d : ℚ),
      (analyze_key_areas noteAreas measureAreas gk d).1 ≠ [])
    ∧ (∀ d : ℚ, analyze_key_areas [] [] none d =
        ([⟨"C major", "major", "C", 0, d, 0.5⟩], none)) := by
  constructor
  · intro na ma gk d
    unfold analyze_key_areas
    cases na with
    | nil =>
      cases ma with
      | nil =>
        cases gk with
        | none => simp
        | some g => simp
      | cons a l => simp
    | cons a l => simp
  · intro d
    rfl

/-- A successfully applied positivity guard returns a positive value. -/
theorem posOnly_pos {d e : ℚ} (h : posOnly d = some e) : 0 < e := by
  unfold posOnly at h
  split at h
  · cases h; assumption
  · cases h

/-- A successful bind through the positivity guard returns a positive
value. -/
theorem bind_posOnly_pos {o : Option ℚ} {e : ℚ} (h : o.bind posOnly = some e) : 0 < e := by
  cases o with
  | none => cases h
  | some a => exact posOnly_pos h

/-- Strategy 1 only returns positive durations. -/
theorem strat1_pos {s : Score} {e : ℚ} (h : strat1 s = some e) : 0 < e := by
  unfold strat1 at h
  rw [Option.bind_eq_some] at h
  obtain ⟨ht, hht, h⟩ := h
  split at h
  · exact bind_posOnly_pos h
  · cases h

/-- Strategy 2 only returns positive durations. -/
theorem strat2_pos {s : Score} {e : ℚ} (h : strat2 s = some e) : 0 < e := by
  unfold strat2 at h
  split at h
  · cases h
  · exact posOnly_pos h

/-- Strategy 3 only returns positive durations. -/
theorem strat3_pos {s : Score} {e : ℚ} (h : strat3 s = some e) : 0 < e := by
  unfold strat3 at h
  rw [Option.bind_eq_some] at h
  obtain ⟨ns, hns, h⟩ := h
  split at h
  · cases h
  · exact bind_posOnly_pos h

/-- Strategy 4 only returns positive durations. -/
theorem strat4_pos {s : Score} {e : ℚ} (h : strat4 s = some e) : 0 < e := by
  unfold strat4 at h
  rw [Option.bind_eq_some] at h
  obtain ⟨q, hq, h⟩ := h
  exact bind_posOnly_pos h

/-- C8: the duration resolver always returns a strictly positive finite
rational, and when all four strategies fail it returns exactly the
fallback constant 180. -/
theorem get_true_duration_seconds_pos (s : Score) :
    0 < get_true_duration_seconds s
    ∧ (strat1 s = none → strat2 s = none → strat3 s = none → strat4 s = none →
        get_true_duration_seconds s = 180) := by
  constructor
  · unfold get_true_duration_seconds
    cases h1 : strat1 s with
    | some d => exact strat1_pos h1
    | none =>
      cases h2 : strat2 s with
      | some d => exact strat2_pos h2
      | none =>
        cases h3 : strat3 s with
        | some d => exact strat3_pos h3
        | none =>
          cases h4 : strat4 s with
          | some d => exact strat4_pos h4
          | none => norm_num
  · intro h1 h2 h3 h4
    unfold get_true_duration_seconds
    rw [h1, h2, h3, h4]

/-- A score on which every duration strategy fails. -/
def sAllFail : Score := ⟨none, none, none, none, []⟩

/-- Witness for C8: on a score where every strategy fails the resolver
returns the positive fallback 180. -/
theorem get_true_duration_seconds_pos_witness :
    0 < get_true_duration_seconds sAllFail ∧ get_true_duration_seconds sAllFail = 180 :=
  ⟨(get_true_duration_seconds_pos sAllFail).1,
   (get_true_duration_seconds_pos sAllFail).2 rfl rfl rfl rfl⟩

/-- C10: the tempo conversion is total exactly when the score has no
tempo mark or its first mark carries a non-None, non-zero bpm; with a
first mark of bpm 0 it raises instead of returning a value. -/
theorem quarter_to_seconds_domain :
    (∀ (q b : ℚ) (rest : List (Option ℚ)),
        (quarter_to_seconds (some b :: rest) q).isSome ↔ b ≠ 0)
    ∧ (∀ (q : ℚ) (rest : List (Option ℚ)), quarter_to_seconds (none :: rest) q = none)
    ∧ (∀ q : ℚ, quarter_to_seconds [] q = some (q * (60 / 120)))
    ∧ (∀ q : ℚ, quarter_to_seconds [some 0] q = none) := by
  refine ⟨?_, ?_, ?_, ?_⟩
  · intro q b rest
    unfold quarter_to_seconds tempoSeconds bpmOf
    by_cases hb : b = 0 <;> simp [hb]
  · intro q rest
    rfl
  · intro q
    rfl
  · intro q
    unfold quarter_to_seconds tempoSeconds bpmOf
    norm_num

/-- Twelve identical melodic notes; position 4 has exactly 8 notes
remaining, and the extractor emits no window there. -/
def notes12 : List NoteEv := (List.range 12).map fun k => ⟨k, 1, 60⟩

/-- C9 counterexample: on 12 notes the extractor emits one window, not
the two that a window at the exactly-8-remaining position would give. -/
theorem themes_at_12_notes_ne_claimed :
    (detect_thematic_material 120 notes12).length ≠ 2 := by
  decide

/-- C9 amended: the extractor returns the empty list for fewer than 10
notes, and otherwise emits one window per index of range(0, n - 8, 4),
so ceil((n - 8) / 4) windows: the loop bound is exclusive and no window
starts where exactly 8 notes remain. -/
theorem detect_thematic_material_count (bpm : ℚ) (notes : List NoteEv) :
    (detect_thematic_material bpm notes).length =
      if notes.length < 10 then 0 else (notes.length - 8 + 3) / 4 := by
  unfold detect_thematic_material
  split
  · rfl
  · rw [List.length_map]
    unfold pyRange
    rw [List.length_map, List.length_range]
    congr 1

/-- The duration resolver in the order the claim states: the secondsMap
strategy first and the highest-time strategy second, the remaining
strategies and the 180 fallback unchanged.  Written from the claim
words, for comparison with the source order. -/
def claimed_duration_resolver (s : Score) : ℚ :=
  match strat2 s with
  | some d => d
  | none =>
    match strat1 s with
    | some d => d
    | none =>
      match strat3 s with
      | some d => d
      | none =>
        match strat4 s with
        | some d => d
        | none => 180

/-- A score where the highest-time strategy yields 50 seconds and the
secondsMap strategy yields 30 seconds. -/
def csDual : Score := ⟨some 100, some [⟨some 0, some 30⟩], some [], none, []⟩

/-- C3 counterexample: on a score where both strategies succeed with
different values the code returns the highest-time value 50, not the
secondsMap value 30 that the claimed ordering would give. -/
theorem duration_order_ne_claimed :
    get_true_duration_seconds csDual = 50 ∧ claimed_duration_resolver csDual = 30
    ∧ get_true_duration_seconds csDual ≠ claimed_duration_resolver csDual := by
  have hs1 : strat1 csDual = some 50 := by
    norm_num [strat1, csDual, tempoSeconds, bpmOf, posOnly]
  have hs2 : strat2 csDual = some 30 := by
    norm_num [strat2, csDual, get_seconds_map, smEnd, posOnly]
  have hg : get_true_duration_seconds csDual = 50 := by
    unfold get_true_duration_seconds
    rw [hs1]
  have hc : claimed_duration_resolver csDual = 30 := by
    unfold claimed_duration_resolver
    rw [hs2]
  refine ⟨hg, hc, ?_⟩
  rw [hg, hc]
  norm_num

/-- C3 amended: the source tries the highest-time strategy first, the
secondsMap strategy second, the last-note strategy third and the
declared-duration strategy fourth, accepting the first that returns a
(positive) value. -/
theorem duration_strategy_priority (s : Score) :
    (∀ d, strat1 s = some d → get_true_duration_seconds s = d)
    ∧ (strat1 s = none → ∀ d, strat2 s = some d → get_true_duration_seconds s = d)
    ∧ (strat1 s = none → strat2 s = none →
        ∀ d, strat3 s = some d → get_true_duration_seconds s = d)
    ∧ (strat1 s = none → strat2 s = none → strat3 s = none →
        ∀ d, strat4 s = some d → get_true_duration_seconds s = d) := by
  refine ⟨?_, ?_, ?_, ?_⟩
  · intro d h
    unfold get_true_duration_seconds
    rw [h]
  · intro h1 d h
    unfold get_true_duration_seconds
    rw [h1, h]
  · intro h1 h2 d h
    unfold get_true_duration_seconds
    rw [h1, h2, h]
  · intro h1 h2 h3 d h
    unfold get_true_duration_seconds
    rw [h1, h2, h3, h]

/-- Witness for C3 amended: on the two-strategy score the resolver
returns the highest-time value. -/
theorem duration_strategy_priority_witness :
    strat1 csDual = some 50 ∧ get_true_duration_seconds csDual = 50 :=
  ⟨by norm_num [strat1, csDual, tempoSeconds, bpmOf, posOnly],
   (duration_strategy_priority csDual).1 50
     (by norm_num [strat1, csDual, tempoSeconds, bpmOf, posOnly])⟩

/-- A measure whose middle chord is classified as dominant: the
dominant-function chord is the second chord of a non-final pair. -/
def mC2 : MeasureM := ⟨0, [⟨0, some "ii"⟩, ⟨1, some "V"⟩, ⟨2, some "ii"⟩], some "C major"⟩

/-- C2 counterexample: the pair (chords[0], chords[1]) of mC2 has a
dominant-function second chord, yet the detector emits no cadence at
all: the half-cadence rule is restricted to the last pair, not applied
unconditionally. -/
theorem half_cadence_not_unconditional :
    py_in "V" ((mC2.chords.getD 1 ⟨0, none⟩).rn.getD "") = true
    ∧ detect_cadences 120 [mC2] = [] := by
  constructor
  · rfl
  · rfl

/-- pair_cadence once both roman-numeral classifications succeed. -/
theorem pair_cadence_eq (bpm : ℚ) (i : ℕ) (m : MeasureM) (k : String) (j : ℕ)
    {r1 r2 : String}
    (h1 : (m.chords.getD j ⟨0, none⟩).rn = some r1)
    (h2 : (m.chords.getD (j + 1) ⟨0, none⟩).rn = some r2) :
    pair_cadence bpm i m k j =
      if py_in "V" r1 && (r2 == "I") then
        [⟨"authentic", i, ((m.chords.getD (j + 1) ⟨0, none⟩).offset + m.offset) * (60 / bpm), k⟩]
      else if py_in "V" r2 && (j == m.chords.length - 2) then
        [⟨"half", i, ((m.chords.getD (j + 1) ⟨0, none⟩).offset + m.offset) * (60 / bpm), k⟩]
      else [] := by
  unfold pair_cadence
  rw [h1, h2]

/-- C2 amended: a measure contributes a half cadence exactly when it has
at least two chords, its local key analysis succeeds, both chords of its
LAST adjacent pair classify successfully, the last chord is dominant,
and that pair does not already fire the authentic rule; dominant second
chords of non-final pairs never yield a half cadence. -/
theorem half_cadence_last_pair_iff (bpm : ℚ) (i : ℕ) (m : MeasureM) :
    (∃ c ∈ measure_cadences bpm i m, c.type = "half") ↔
    (2 ≤ m.chords.length ∧ ∃ k r1 r2,
      m.localKey = some k
      ∧ (m.chords.getD (m.chords.length - 2) ⟨0, none⟩).rn = some r1
      ∧ (m.chords.getD (m.chords.length - 1) ⟨0, none⟩).rn = some r2
      ∧ py_in "V" r2 = true
      ∧ ¬(py_in "V" r1 = true ∧ r2 = "I")) := by
  unfold measure_cadences
  by_cases hlen : m.chords.length < 2
  · rw [if_pos hlen]
    constructor
    · rintro ⟨c, hc, -⟩
      exact absurd hc (List.not_mem_nil c)
    · rintro ⟨h2, -⟩
      omega
  · rw [if_neg hlen]
    cases hk : m.localKey with
    | none =>
      constructor
      · rintro ⟨c, hc, -⟩
        exact absurd hc (List.not_mem_nil c)
      · rintro ⟨-, k, r1, r2, hkk, -⟩
        cases hkk
    | some k0 =>
      constructor
      · rintro ⟨c, hc, htype⟩
        rw [List.mem_flatMap] at hc
        obtain ⟨j, hj, hcj⟩ := hc
        rw [List.mem_range] at hj
        unfold pair_cadence at hcj
        split at hcj
        next r1 r2 h1 h2 =>
          split_ifs at hcj with hA hB
          · rw [List.mem_singleton] at hcj
            subst hcj
            simp at htype
          · rw [List.mem_singleton] at hcj
            rw [Bool.and_eq_true] at hB
            obtain ⟨hV, hj2⟩ := hB
            have hjeq : j = m.chords.length - 2 := by simpa using hj2
            subst hjeq
            have hsucc : m.chords.length - 2 + 1 = m.chords.length - 1 := by omega
            rw [hsucc] at h2
            refine ⟨by omega, k0, r1, r2, rfl, h1, h2, hV, ?_⟩
            rintro ⟨ha, hb⟩
            apply hA
            rw [Bool.and_eq_true]
            exact ⟨ha, beq_iff_eq.mpr hb⟩
          · exact absurd hcj (List.not_mem_nil c)
        next h12 =>
          exact absurd hcj (List.not_mem_nil c)
      · rintro ⟨h2len, k, r1, r2, hkk, h1, h2, hV, hnA⟩
        injection hkk with hkeq
        subst hkeq
        refine ⟨⟨"half", i,
          ((m.chords.getD (m.chords.length - 1) ⟨0, none⟩).offset + m.offset) * (60 / bpm), k0⟩,
          ?_, rfl⟩
        rw [List.mem_flatMap]
        refine ⟨m.chords.length - 2, ?_, ?_⟩
        · rw [List.mem_range]
          omega
        · have hsucc : m.chords.length - 2 + 1 = m.chords.length - 1 := by omega
          rw [pair_cadence_eq bpm i m k0 (m.chords.length - 2) h1 (by rw [hsucc]; exact h2)]
          rw [hsucc]
          rw [if_neg ?_, if_pos ?_]
          · exact List.mem_singleton.mpr rfl
          · rw [Bool.and_eq_true]
            exact ⟨hV, by simp⟩
          · rw [Bool.and_eq_true]
            rintro ⟨ha, hb⟩
            exact hnA ⟨ha, beq_iff_eq.mp hb⟩

end SonataSeeker
